import Mathlib

/-!
# Verification of the web-records application core

Shallow embedding of the web-records browser application (TypeScript sources
under `src/src`, with the legacy JavaScript version under `js/` where noted)
and proofs about its persisted data model, workflow state machine, network
request construction, and error handling.

Conventions of the embedding:
* `localStorage` is modelled as a record with one optional field per storage
  key used by `src/src/modules/storage.ts`; JSON (de)serialisation of values
  is modelled as the identity on the typed values.
* JavaScript strings are Lean `String`s; `s.trim()` is modelled by `jsTrim`
  (drop Unicode whitespace on both ends, via `Char.isWhitespace`), and the
  JS `a || b` idiom on strings (empty string is falsy) by `jsOr`.
* Fallible calls return `Except String α`, the `String` being the thrown
  error message; an `await`ed external network response is passed to the
  embedded handler as an explicit `Except`/`Option` argument.
* Wall-clock reads (`new Date().toISOString()`, `Date.now()`) are passed as
  explicit `now` arguments.
-/

namespace WebRecords

/-! ## JavaScript string helpers -/

/-- The whitespace predicate used by `String.prototype.trim`. -/
def isJsSpace (c : Char) : Bool := c.isWhitespace

/-- Both-ends trim on character lists: drop leading and trailing whitespace. -/
def trimChars (l : List Char) : List Char :=
  List.rdropWhile isJsSpace (List.dropWhile isJsSpace l)

/-- Embedding of JavaScript `s.trim()`. -/
def jsTrim (s : String) : String := ⟨trimChars s.data⟩

/-- Embedding of the JavaScript `v || d` idiom on strings: `null`/`undefined`
(`none`) and the empty string are falsy and yield the default `d`. -/
def jsOr (v : Option String) (d : String) : String :=
  match v with
  | none => d
  | some s => if s = "" then d else s

/-- Embedding of JavaScript `s.includes(sub)`. -/
def jsIncludes (s sub : String) : Bool := decide (sub.data <:+: s.data)

/-! ## Data model (`src/src/types/index.ts`)

The `AppState` enum, in the variant used by `src/src/components/App.tsx` and
`js/app.js` (six states; the workflow's linear order is the declaration
order). -/

inductive AppState
  | IDLE
  | RECORDING
  | TRANSCRIBING
  | TRANSCRIPT_READY
  | GENERATING_SOAP
  | SOAP_READY
deriving DecidableEq, Repr

/-- Position of a state along the linear workflow path
`idle → recording → transcribing → transcript_ready → generating_soap → soap_ready`. -/
def stateOrd : AppState → Nat
  | .IDLE => 0
  | .RECORDING => 1
  | .TRANSCRIBING => 2
  | .TRANSCRIPT_READY => 3
  | .GENERATING_SOAP => 4
  | .SOAP_READY => 5

/-- The unique successor along the linear workflow path. -/
def pathNext : AppState → Option AppState
  | .IDLE => some .RECORDING
  | .RECORDING => some .TRANSCRIBING
  | .TRANSCRIBING => some .TRANSCRIPT_READY
  | .TRANSCRIPT_READY => some .GENERATING_SOAP
  | .GENERATING_SOAP => some .SOAP_READY
  | .SOAP_READY => none

/-- `interface Session` from `src/src/types/index.ts`: all fields optional. -/
structure Session where
  transcript : Option String := none
  soap : Option String := none
  soapHTML : Option String := none
  state : Option AppState := none
  timestamp : Option String := none
deriving DecidableEq, Repr

/-- `type AlertType` from `src/src/types/index.ts`. -/
inductive AlertType
  | error
  | success
  | info
  | warning
deriving DecidableEq, Repr

/-! ## Storage (`src/src/modules/storage.ts`)

`localStorage` restricted to the five keys of `STORAGE_KEYS`; each field is
`none` when the key is absent. The JSON round trip through
`JSON.stringify`/`JSON.parse` is modelled as the identity. -/

structure LocalStorage where
  gemini_api_key : Option String := none
  system_prompt : Option String := none
  current_session : Option Session := none
  session_history : Option (List Session) := none
  selected_template : Option String := none
deriving DecidableEq, Repr

/-- `DEFAULT_SYSTEM_PROMPT` from `src/src/modules/storage.ts`. -/
def DEFAULT_SYSTEM_PROMPT : String :=
  "You are a veterinary medical assistant.\nConvert the following veterinary consultation transcript into a structured format.\n\nFormat your response in clean Markdown with clear section headers.\nBe concise but thorough.\nUse professional veterinary terminology."

namespace Storage

/-- `Storage.getApiKey`: `localStorage.getItem(API_KEY) || ''`. -/
def getApiKey (s : LocalStorage) : String := jsOr s.gemini_api_key ""

/-- `Storage.setApiKey`. -/
def setApiKey (s : LocalStorage) (key : String) : LocalStorage :=
  { s with gemini_api_key := some key }

/-- `Storage.hasApiKey`. -/
def hasApiKey (s : LocalStorage) : Bool := (getApiKey s).length > 0

/-- `Storage.clearApiKey`. -/
def clearApiKey (s : LocalStorage) : LocalStorage := { s with gemini_api_key := none }

/-- `Storage.getSystemPrompt`: `getItem(SYSTEM_PROMPT) || DEFAULT_SYSTEM_PROMPT`. -/
def getSystemPrompt (s : LocalStorage) : String := jsOr s.system_prompt DEFAULT_SYSTEM_PROMPT

/-- `Storage.setSystemPrompt`. -/
def setSystemPrompt (s : LocalStorage) (prompt : String) : LocalStorage :=
  { s with system_prompt := some prompt }

/-- `Storage.resetSystemPrompt`. -/
def resetSystemPrompt (s : LocalStorage) : LocalStorage :=
  { s with system_prompt := some DEFAULT_SYSTEM_PROMPT }

/-- `Storage.getSelectedTemplate`: `getItem(SELECTED_TEMPLATE) || 'none'`. -/
def getSelectedTemplate (s : LocalStorage) : String := jsOr s.selected_template "none"

/-- `Storage.setSelectedTemplate`. -/
def setSelectedTemplate (s : LocalStorage) (templateId : String) : LocalStorage :=
  { s with selected_template := some templateId }

/-- `Storage.getCurrentSession`. -/
def getCurrentSession (s : LocalStorage) : Option Session := s.current_session

/-- `Storage.setCurrentSession`. -/
def setCurrentSession (s : LocalStorage) (sessionData : Session) : LocalStorage :=
  { s with current_session := some sessionData }

/-- `Storage.clearCurrentSession`. -/
def clearCurrentSession (s : LocalStorage) : LocalStorage := { s with current_session := none }

/-- `Storage.getSessionHistory`: `data ? JSON.parse(data) : []`. -/
def getSessionHistory (s : LocalStorage) : List Session := s.session_history.getD []

/-- `Storage.addSessionToHistory`: stamp the session with the current time,
`unshift` it onto the history, `pop` the last entry when the length exceeds
50, and store the result. `now` is `new Date().toISOString()`. -/
def addSessionToHistory (s : LocalStorage) (session : Session) (now : String) : LocalStorage :=
  let history := getSessionHistory s
  let sessionWithTimestamp : Session := { session with timestamp := some now }
  let history1 := sessionWithTimestamp :: history
  let history2 := if history1.length > 50 then history1.dropLast else history1
  { s with session_history := some history2 }

/-- `Storage.clearSessionHistory`. -/
def clearSessionHistory (s : LocalStorage) : LocalStorage := { s with session_history := none }

/-- `Storage.clearAllData`: removes every key of `STORAGE_KEYS`. -/
def clearAllData (_s : LocalStorage) : LocalStorage := {}

end Storage

/-- The timestamp of a stored session record (empty when absent). -/
def tsOf (x : Session) : String := x.timestamp.getD ""

/-- A history list is ordered newest first when timestamps are non-increasing
from head to tail. -/
def newestFirst (l : List Session) : Prop :=
  l.Chain' (fun a b => tsOf b ≤ tsOf a)

/-! ## Gemini client (`src/src/modules/gemini-client.ts`) -/

/-- `transcriptionModel` constant. -/
def transcriptionModel : String := "gemini-2.5-flash"

/-- `analysisModel` constant. -/
def analysisModel : String := "gemini-2.5-pro"

/-- The `abbreviations` map from `src/src/content/abbreviations.ts`,
as its (insertion-ordered) entry list. -/
def abbreviations : List (String × String) :=
  [ ("LBVC", "Loomis Basin Veterinary Clinic"),
    ("C/S/V/D", "coughing/sneezing/vomiting/diarrhea"),
    ("P", "patient"),
    ("O", "owner"),
    ("AUS", "Abdominal ultrasound"),
    ("NPO", "nothing by mouth") ]

/-- `Array.from(abbreviations.entries()).map(([key, value]) => ...).join(', ')`. -/
def abbreviationPairsText : String :=
  String.intercalate ", " (abbreviations.map (fun kv => kv.1 ++ ": " ++ kv.2))

/-- The first user part of `generateNote` (the abbreviation preamble template
literal from lines 126-129; `\x7d` is the stray closing brace the template
literal leaves after the interpolated join). -/
def noteAbbrevPreamble : String :=
  "The user's transcription follows.\n          Common phrases that should be abbreviated into their short form include\n          "
    ++ abbreviationPairsText ++ "\x7d\n          "

/-- The template-guide part unshifted by `generateNote` when a template is
selected. -/
def templateGuideText : String :=
  "Use the following template as a guide for structuring the note:"

/-- The separator part unshifted by `generateNote` after the template body. -/
def templateSeparatorText : String := "\n---\n"

/-- A `generateContent` request as assembled by `GeminiClient.generateNote`:
the model name, the user parts in order, and the system instruction. -/
structure GenerateRequest where
  model : String
  parts : List String
  systemInstruction : String
deriving DecidableEq, Repr

/-- The user-parts construction of `GeminiClient.generateNote` (lines
123-141): the abbreviation preamble and the transcript always, with
`[guide, templateContent, separator]` unshifted in front exactly when
`templateContent && templateContent.trim().length > 0`. -/
def buildUserParts (transcript : String) (templateContent : Option String) : List String :=
  let userParts := [noteAbbrevPreamble, transcript]
  match templateContent with
  | none => userParts
  | some tc =>
    if tc ≠ "" ∧ (jsTrim tc).length > 0 then
      templateGuideText :: tc :: templateSeparatorText :: userParts
    else
      userParts

/-- The full request `GeminiClient.generateNote` sends to
`genAI.models.generateContent` (lines 143-157). -/
def generateNoteRequest (transcript systemPrompt : String)
    (templateContent : Option String) : GenerateRequest :=
  { model := analysisModel,
    parts := buildUserParts transcript templateContent,
    systemInstruction := systemPrompt }

/-- The shared post-response check of `transcribeAudio` (lines 88-94) and
`generateNote` (lines 159-165): `response.text` absent, empty, or
whitespace-only throws `emptyMsg`; otherwise the trimmed text is returned. -/
def extractTrimmedText (responseText : Option String) (emptyMsg : String) :
    Except String String :=
  match responseText with
  | none => .error emptyMsg
  | some t =>
    if t = "" then .error emptyMsg
    else if (jsTrim t).length = 0 then .error emptyMsg
    else .ok (jsTrim t)

/-- The catch-clause message rewriting of `transcribeAudio` (lines 95-107). -/
def mapTranscriptionError (msg : String) : String :=
  if jsIncludes msg "API_KEY_INVALID" ∨ jsIncludes msg "API key" then
    "Invalid API key. Please check your Gemini API key in settings."
  else if jsIncludes msg "quota" ∨ jsIncludes msg "rate limit" then
    "API rate limit exceeded. Please wait a moment and try again."
  else if jsIncludes msg "audio" ∨ jsIncludes msg "format" then
    "Audio format not supported. Please try recording again."
  else
    "Transcription failed: " ++ msg

/-- The catch-clause message rewriting of `generateNote` (lines 166-176). -/
def mapGenerationError (msg : String) : String :=
  if jsIncludes msg "API_KEY_INVALID" ∨ jsIncludes msg "API key" then
    "Invalid API key. Please check your Gemini API key in settings."
  else if jsIncludes msg "quota" ∨ jsIncludes msg "rate limit" then
    "API rate limit exceeded. Please wait a moment and try again."
  else
    "SOAP generation failed: " ++ msg

/-- Result of `GeminiClient.transcribeAudio` as a function of the network
response text (`response.text`, absent or present). -/
def transcribeAudioResult (responseText : Option String) : Except String String :=
  match extractTrimmedText responseText "Transcription returned empty result" with
  | .ok t => .ok t
  | .error e => .error (mapTranscriptionError e)

/-- Result of `GeminiClient.generateNote` as a function of the network
response text. -/
def generateNoteResult (responseText : Option String) : Except String String :=
  match extractTrimmedText responseText "SOAP generation returned empty result" with
  | .ok t => .ok t
  | .error e => .error (mapGenerationError e)

/-! ## Audio recorder (`src/src/modules/audio-recorder.ts`) -/

/-- `MediaRecorder.state` values. -/
inductive MRState
  | inactive
  | recording
  | paused
deriving DecidableEq, Repr

/-- The parts of a browser `MediaRecorder` the module observes. -/
structure MediaRecorder where
  state : MRState := .inactive
  mimeType : String := ""
deriving DecidableEq, Repr

/-- A browser `Blob`: byte data plus a MIME type. -/
structure Blob where
  data : List Nat := []
  type : String := ""
deriving DecidableEq, Repr

/-- `interface AudioData` from `src/src/types/index.ts`. -/
structure AudioData where
  blob : Blob
  mimeType : String
  duration : Nat
deriving DecidableEq, Repr

/-- The mutable fields of `class AudioRecorder`. -/
structure AudioRecorder where
  mediaRecorder : Option MediaRecorder := none
  audioChunks : List Blob := []
  startTime : Option Nat := none
deriving DecidableEq, Repr

namespace AudioRecorder

/-- Successful `initialize()`: a `MediaRecorder` is created in the
`inactive` state with the supported MIME type `mt`. -/
def initializeOk (r : AudioRecorder) (mt : String) : AudioRecorder :=
  { r with mediaRecorder := some { state := .inactive, mimeType := mt } }

/-- `AudioRecorder.start` (lines 93-116): throws when not initialized or
already recording; otherwise resets the chunk buffer, records the start
time (`Date.now()` passed as `now`), and starts the `MediaRecorder`. -/
def start (r : AudioRecorder) (now : Nat) : Except String AudioRecorder :=
  match r.mediaRecorder with
  | none => .error "Recorder not initialized. Call initialize() first."
  | some mr =>
    if mr.state = .recording then
      .error "Recording already in progress."
    else
      .ok { r with audioChunks := [], startTime := some now,
                   mediaRecorder := some { mr with state := .recording } }

/-- The `ondataavailable` handler (lines 48-52): chunks with positive size
are appended to the buffer. -/
def dataAvailable (r : AudioRecorder) (b : Blob) : AudioRecorder :=
  if b.data.length > 0 then { r with audioChunks := r.audioChunks ++ [b] } else r

/-- Whether a recording is active (`mediaRecorder.state === 'recording'`). -/
def isActive (r : AudioRecorder) : Bool :=
  match r.mediaRecorder with
  | none => false
  | some mr => mr.state = .recording

/-- `AudioRecorder.stop` (lines 121-161): throws when no recording is
active; rejects when the start time is missing in `onstop`; otherwise
resolves with the blob assembled from the collected chunks, the recorder's
MIME type (defaulted to `audio/webm`), and the elapsed whole seconds. -/
def stop (r : AudioRecorder) (now : Nat) : Except String (AudioRecorder × AudioData) :=
  match r.mediaRecorder with
  | none => .error "No active recording to stop."
  | some mr =>
    if mr.state ≠ .recording then .error "No active recording to stop."
    else
      match r.startTime with
      | none => .error "Recording state invalid"
      | some t0 =>
        let mimeType := jsOr (some mr.mimeType) "audio/webm"
        let audioBlob : Blob := { data := r.audioChunks.flatMap (·.data), type := mimeType }
        .ok ({ r with mediaRecorder := some { mr with state := .inactive } },
             { blob := audioBlob, mimeType := mimeType, duration := (now - t0) / 1000 })

end AudioRecorder

/-! ## Application component (`src/src/components/App.tsx`) -/

/-- The `useState` fields of the `App` component that the workflow handlers
read and write. -/
structure AppComponent where
  appState : AppState := .IDLE
  transcript : String := ""
  soapMarkdown : String := ""
  soapHTML : String := ""
  selectedTemplate : String := "none"
  alert : Option (String × AlertType) := none
deriving DecidableEq, Repr

/-- `showAlert` (lines 80-88), without the auto-dismiss timer. -/
def showAlert (c : AppComponent) (message : String) (type_ : AlertType) : AppComponent :=
  { c with alert := some (message, type_) }

/-- `handleStopRecording` (lines 103-129). `stopResult` is the settled
promise of `audioRecorder.stop()`, `clientReady` whether `geminiClient` is
non-null, and `transcribeResult` the settled transcription call. Any
failure lands in the catch block: the error message is surfaced as an
alert and the state returns to `IDLE`. -/
def handleStopRecording (c : AppComponent) (stopResult : Except String AudioData)
    (clientReady : Bool) (transcribeResult : Except String String) : AppComponent :=
  match stopResult with
  | .error e => showAlert { c with appState := .IDLE } e .error
  | .ok _audioData =>
    let c1 := { c with appState := .TRANSCRIBING }
    if !clientReady then
      showAlert { c1 with appState := .IDLE } "Gemini client not initialized" .error
    else
      match transcribeResult with
      | .error e => showAlert { c1 with appState := .IDLE } e .error
      | .ok transcribedText =>
        showAlert { c1 with transcript := transcribedText, appState := .TRANSCRIPT_READY }
          "Transcription complete!" .success

/-- `handleReRecord` (lines 132-138). -/
def handleReRecord (c : AppComponent) (s : LocalStorage) : AppComponent × LocalStorage :=
  ({ c with transcript := "", soapMarkdown := "", soapHTML := "", appState := .IDLE },
   Storage.clearCurrentSession s)

/-- `handleGenerateSOAP` (lines 140-173). `genResult` is the settled
`generateNote` call and `render` the `renderMarkdown` function (its
internals are irrelevant here). Any failure lands in the catch block: the
error message is surfaced as an alert and the state returns to
`TRANSCRIPT_READY`. -/
def handleGenerateSOAP (c : AppComponent) (s : LocalStorage) (clientReady : Bool)
    (genResult : Except String String) (render : String → String) :
    AppComponent × LocalStorage :=
  let c1 := { c with appState := .GENERATING_SOAP }
  if !clientReady then
    (showAlert { c1 with appState := .TRANSCRIPT_READY } "Gemini client not initialized" .error, s)
  else
    let s1 := Storage.setSelectedTemplate s c.selectedTemplate
    match genResult with
    | .error e => (showAlert { c1 with appState := .TRANSCRIPT_READY } e .error, s1)
    | .ok soapText =>
      (showAlert { c1 with soapMarkdown := soapText, soapHTML := render soapText,
                           appState := .SOAP_READY } "SOAP note generated!" .success, s1)

/-- `handleSaveSOAP` (lines 193-206). `tsCaller` is the
`new Date().toISOString()` the handler itself writes into the record, and
`tsStore` the one `addSessionToHistory` stamps at insertion. -/
def handleSaveSOAP (c : AppComponent) (s : LocalStorage) (html : String)
    (tsCaller tsStore : String) : AppComponent × LocalStorage :=
  let c1 := { c with soapHTML := html }
  let s1 := Storage.addSessionToHistory s
    { transcript := some c.transcript, soap := some c.soapMarkdown,
      soapHTML := some html, state := some c.appState, timestamp := some tsCaller }
    tsStore
  (showAlert c1 "Session saved to history" .success, s1)

/-! ## User-visible controls and the workflow step relation

Control availability per state, read off the JSX conditions of
`RecordingSection.tsx` (start shown iff not recording, stop shown iff
recording), `TranscriptSection.tsx` (content rendered iff not transcribing;
Re-record enabled iff the transcript is non-empty; Generate enabled iff the
state is `TRANSCRIPT_READY`), and `SOAPSection.tsx` (content rendered iff
not generating; Regenerate/Copy/Save enabled iff the note markup is
non-empty). -/

inductive UserAction
  | startRecording
  | stopRecording
  | reRecord
  | generateSOAP
  | regenerateSOAP
  | copySOAP
  | saveSOAP
deriving DecidableEq, Repr

/-- Whether the control triggering an action is rendered and enabled, given
the app state, whether a transcript exists, and whether note markup
exists. -/
def actionAvailable (st : AppState) (hasTranscript hasContent : Bool) :
    UserAction → Bool
  | .startRecording => st ≠ .RECORDING
  | .stopRecording => st = .RECORDING
  | .reRecord => st ≠ .TRANSCRIBING && hasTranscript
  | .generateSOAP => st ≠ .TRANSCRIBING && st = .TRANSCRIPT_READY
  | .regenerateSOAP => st ≠ .GENERATING_SOAP && hasContent
  | .copySOAP => st ≠ .GENERATING_SOAP && hasContent
  | .saveSOAP => st ≠ .GENERATING_SOAP && hasContent

/-- The kinds of AI network request the app can start. -/
inductive RequestKind
  | transcription
  | noteGeneration
deriving DecidableEq, Repr

/-- The AI request a user action starts, if any: stopping a recording starts
the transcription call (`handleStopRecording`), and Generate/Regenerate
start the note-generation call (`handleGenerateSOAP`). -/
def startsRequest : UserAction → Option RequestKind
  | .stopRecording => some .transcription
  | .generateSOAP => some .noteGeneration
  | .regenerateSOAP => some .noteGeneration
  | _ => none

/-- The non-error state transitions of the workflow: each constructor is one
`setAppState` call on a success path of a handler in
`src/src/components/App.tsx`, guarded by the availability of the control
that triggers it. -/
inductive NonErrorStep : AppState → AppState → Prop
  /-- `handleStartRecording` succeeds (start control shown iff not
  recording). -/
  | startRec (s : AppState) : s ≠ .RECORDING → NonErrorStep s .RECORDING
  /-- `handleStopRecording`: `audioRecorder.stop()` resolved. -/
  | stopRec : NonErrorStep .RECORDING .TRANSCRIBING
  /-- `handleStopRecording`: the transcription call resolved. -/
  | transcribeOk : NonErrorStep .TRANSCRIBING .TRANSCRIPT_READY
  /-- `handleGenerateSOAP` entered via the Generate control. -/
  | generate : NonErrorStep .TRANSCRIPT_READY .GENERATING_SOAP
  /-- `handleRegenerateSOAP` entered via the Regenerate control, which
  `SOAPSection.tsx` renders whenever the app is not generating and enables
  whenever note content exists (`disabled` iff `!hasContent`), so it can
  fire from any non-generating state once a note has been produced. -/
  | regenerate (s : AppState) : s ≠ .GENERATING_SOAP → NonErrorStep s .GENERATING_SOAP
  /-- `handleGenerateSOAP`: the note-generation call resolved. -/
  | generateOk : NonErrorStep .GENERATING_SOAP .SOAP_READY
  /-- `handleReRecord` (control rendered iff not transcribing). -/
  | rerecord (s : AppState) : s ≠ .TRANSCRIBING → NonErrorStep s .IDLE

/-! ## Helper lemmas -/

theorem dropWhile_trimChars (l : List Char) :
    List.dropWhile isJsSpace (trimChars l) = trimChars l := by
  unfold trimChars
  rw [List.dropWhile_eq_self_iff]
  intro hl
  have hpre := List.rdropWhile_prefix isJsSpace (List.dropWhile isJsSpace l)
  have hlen : 0 < (List.dropWhile isJsSpace l).length :=
    lt_of_lt_of_le hl hpre.length_le
  have h0 := List.dropWhile_get_zero_not isJsSpace l hlen
  have hget := List.IsPrefix.getElem hpre hl
  simpa [List.get_eq_getElem, hget] using h0

theorem trimChars_idem (l : List Char) : trimChars (trimChars l) = trimChars l := by
  show List.rdropWhile isJsSpace (List.dropWhile isJsSpace (trimChars l)) = trimChars l
  rw [dropWhile_trimChars l]
  show List.rdropWhile isJsSpace (List.rdropWhile isJsSpace (List.dropWhile isJsSpace l)) =
    List.rdropWhile isJsSpace (List.dropWhile isJsSpace l)
  exact List.rdropWhile_idempotent _ _

theorem jsTrim_idem (s : String) : jsTrim (jsTrim s) = jsTrim s :=
  congrArg String.mk (trimChars_idem s.data)

theorem ne_empty_of_length_pos {s : String} (h : 0 < s.length) : s ≠ "" := by
  intro he
  subst he
  simp at h

/-! ## Claim theorems: session history (C1, C2, C5) -/

theorem getSessionHistory_addSessionToHistory (s : LocalStorage) (session : Session)
    (now : String) :
    Storage.getSessionHistory (Storage.addSessionToHistory s session now) =
      if (({ session with timestamp := some now } : Session) ::
            Storage.getSessionHistory s).length > 50 then
        (({ session with timestamp := some now } : Session) ::
          Storage.getSessionHistory s).dropLast
      else
        ({ session with timestamp := some now } : Session) ::
          Storage.getSessionHistory s := by
  simp only [Storage.addSessionToHistory, Storage.getSessionHistory]
  split <;> simp_all

/-- C1: for every history list of length at most 50, after
`Storage.addSessionToHistory(session)` the stored session-history list still
has length at most 50: the new (timestamped) record is prepended, and when
the length would exceed 50 the oldest (last) record is removed. -/
theorem c1_history_bounded (s : LocalStorage) (session : Session) (now : String)
    (h : (Storage.getSessionHistory s).length ≤ 50) :
    (Storage.getSessionHistory (Storage.addSessionToHistory s session now)).length ≤ 50 ∧
    (Storage.getSessionHistory (Storage.addSessionToHistory s session now)).head? =
      some { session with timestamp := some now } ∧
    ((Storage.getSessionHistory s).length + 1 > 50 →
      Storage.getSessionHistory (Storage.addSessionToHistory s session now) =
        (({ session with timestamp := some now } : Session) ::
          Storage.getSessionHistory s).dropLast) := by
  rw [getSessionHistory_addSessionToHistory]
  by_cases hlen : (({ session with timestamp := some now } : Session) ::
      Storage.getSessionHistory s).length > 50
  · rw [if_pos hlen]
    have hne : Storage.getSessionHistory s ≠ [] := by
      intro hnil
      rw [hnil] at hlen
      simp at hlen
    refine ⟨?_, ?_, fun _ => rfl⟩
    · rw [List.length_dropLast]
      simp only [List.length_cons]
      omega
    · obtain ⟨y, L, hL⟩ := List.exists_cons_of_ne_nil hne
      rw [hL]
      rfl
  · rw [if_neg hlen]
    simp only [List.length_cons] at hlen
    exact ⟨by simp only [List.length_cons]; omega, rfl, fun hc => absurd hc (by omega)⟩

/-- Witness for `c1_history_bounded` at the empty store. -/
theorem c1_history_bounded_witness :
    (Storage.getSessionHistory (Storage.addSessionToHistory {} {} "2024-01-01")).length ≤ 50 ∧
    (Storage.getSessionHistory (Storage.addSessionToHistory {} {} "2024-01-01")).head? =
      some { ({} : Session) with timestamp := some "2024-01-01" } ∧
    ((Storage.getSessionHistory ({} : LocalStorage)).length + 1 > 50 →
      Storage.getSessionHistory (Storage.addSessionToHistory {} {} "2024-01-01") =
        (({ ({} : Session) with timestamp := some "2024-01-01" } : Session) ::
          Storage.getSessionHistory ({} : LocalStorage)).dropLast) :=
  c1_history_bounded {} {} "2024-01-01" (by decide)

/-- C2: for every session history ordered newest first (timestamps
non-increasing from head to tail) whose entries are no newer than the
current time, `Storage.addSessionToHistory` preserves that order: the added
record is stamped with the current time and placed at index 0, so
`getSessionHistory` returns records newest first. -/
theorem c2_newest_first (s : LocalStorage) (session : Session) (now : String)
    (hsorted : newestFirst (Storage.getSessionHistory s))
    (hnow : ∀ x ∈ Storage.getSessionHistory s, tsOf x ≤ now) :
    newestFirst (Storage.getSessionHistory (Storage.addSessionToHistory s session now)) ∧
    (Storage.getSessionHistory (Storage.addSessionToHistory s session now)).head? =
      some { session with timestamp := some now } := by
  have hchain :
      newestFirst (({ session with timestamp := some now } : Session) ::
        Storage.getSessionHistory s) := by
    rw [newestFirst, List.chain'_cons']
    refine ⟨fun y hy => ?_, hsorted⟩
    have hmem : y ∈ Storage.getSessionHistory s := by
      cases hL : Storage.getSessionHistory s with
      | nil => rw [hL] at hy; simp at hy
      | cons a L =>
          rw [hL] at hy
          simp only [List.head?_cons, Option.mem_def, Option.some.injEq] at hy
          subst hy
          simp_all
    exact hnow y hmem
  rw [getSessionHistory_addSessionToHistory]
  by_cases hlen : (({ session with timestamp := some now } : Session) ::
      Storage.getSessionHistory s).length > 50
  · rw [if_pos hlen]
    have hne : Storage.getSessionHistory s ≠ [] := by
      intro hnil
      rw [hnil] at hlen
      simp at hlen
    refine ⟨List.Chain'.init hchain, ?_⟩
    obtain ⟨y, L, hL⟩ := List.exists_cons_of_ne_nil hne
    rw [hL]
    rfl
  · rw [if_neg hlen]
    exact ⟨hchain, rfl⟩

/-- Witness for `c2_newest_first` on a singleton history. -/
theorem c2_newest_first_witness :
    newestFirst (Storage.getSessionHistory
      (Storage.addSessionToHistory
        (Storage.addSessionToHistory {} {} "2024-01-01") {} "2024-01-01")) ∧
    (Storage.getSessionHistory
      (Storage.addSessionToHistory
        (Storage.addSessionToHistory {} {} "2024-01-01") {} "2024-01-01")).head? =
      some { ({} : Session) with timestamp := some "2024-01-01" } :=
  c2_newest_first (Storage.addSessionToHistory {} {} "2024-01-01") {} "2024-01-01"
    (by simp [newestFirst, Storage.addSessionToHistory, Storage.getSessionHistory])
    (by
      intro x hx
      have hx : x = { ({} : Session) with timestamp := some "2024-01-01" } := by
        simpa [Storage.addSessionToHistory, Storage.getSessionHistory] using hx
      rw [hx]
      exact le_refl _)

/-- C5: every record appended to the session history by `handleSaveSOAP` has
the full data-model shape (transcript, generated note, note markup, workflow
state, timestamp), and the timestamp is always set by `addSessionToHistory`
at insertion time: whatever timestamp the caller supplies is overwritten
with the insertion-time stamp. -/
theorem c5_record_shape (c : AppComponent) (s : LocalStorage) (html : String)
    (tsCaller tsStore : String) (session : Session) (now : String) :
    (Storage.getSessionHistory (handleSaveSOAP c s html tsCaller tsStore).2).head? =
      some { transcript := some c.transcript, soap := some c.soapMarkdown,
             soapHTML := some html, state := some c.appState,
             timestamp := some tsStore } ∧
    (Storage.getSessionHistory (Storage.addSessionToHistory s session now)).head? =
      some { session with timestamp := some now } := by
  constructor
  · show (Storage.getSessionHistory (Storage.addSessionToHistory s _ tsStore)).head? = _
    rw [getSessionHistory_addSessionToHistory]
    split
    · next hlen =>
        have hne : Storage.getSessionHistory s ≠ [] := by
          intro hnil
          rw [hnil] at hlen
          simp at hlen
        obtain ⟨y, L, hL⟩ := List.exists_cons_of_ne_nil hne
        rw [hL]
        rfl
    · rfl
  · rw [getSessionHistory_addSessionToHistory]
    split
    · next hlen =>
        have hne : Storage.getSessionHistory s ≠ [] := by
          intro hnil
          rw [hnil] at hlen
          simp at hlen
        obtain ⟨y, L, hL⟩ := List.exists_cons_of_ne_nil hne
        rw [hL]
        rfl
    · rfl

/-! ## Claim theorems: settings round trip (C7) -/

/-- C7 counterexample: the round trip fails for the system prompt at the
empty string, because `getSystemPrompt` treats a stored empty string as
falsy (JavaScript `||`) and substitutes the default prompt; likewise the
selected template falls back to `'none'`. -/
theorem c7_roundtrip_counterexample :
    Storage.getSystemPrompt (Storage.setSystemPrompt {} "") ≠ "" ∧
    Storage.getSystemPrompt (Storage.setSystemPrompt {} "") = DEFAULT_SYSTEM_PROMPT ∧
    Storage.getSelectedTemplate (Storage.setSelectedTemplate {} "") = "none" := by
  refine ⟨?_, rfl, rfl⟩
  intro h
  have hd : DEFAULT_SYSTEM_PROMPT = "" := h
  exact absurd hd (by decide)

/-- C7 (amended): the API-key round trip holds for every string; the
system-prompt and selected-template round trips hold for every non-empty
string; when a key is unset each getter returns its fixed default (empty
string for the API key, the default system prompt, `'none'` for the
template); and after `clearAllData` every key is removed, so all getters
return their defaults. -/
theorem c7_roundtrip_amended (s : LocalStorage) (k : String) :
    Storage.getApiKey (Storage.setApiKey s k) = k ∧
    (k ≠ "" →
      Storage.getSystemPrompt (Storage.setSystemPrompt s k) = k ∧
      Storage.getSelectedTemplate (Storage.setSelectedTemplate s k) = k) ∧
    Storage.getApiKey {} = "" ∧
    Storage.getSystemPrompt {} = DEFAULT_SYSTEM_PROMPT ∧
    Storage.getSelectedTemplate {} = "none" ∧
    Storage.getApiKey (Storage.clearAllData s) = "" ∧
    Storage.getSystemPrompt (Storage.clearAllData s) = DEFAULT_SYSTEM_PROMPT ∧
    Storage.getSelectedTemplate (Storage.clearAllData s) = "none" := by
  refine ⟨?_, fun hk => ⟨?_, ?_⟩, rfl, rfl, rfl, rfl, rfl, rfl⟩
  · by_cases hk : k = "" <;>
      simp [Storage.getApiKey, Storage.setApiKey, jsOr, hk]
  · simp [Storage.getSystemPrompt, Storage.setSystemPrompt, jsOr, hk]
  · simp [Storage.getSelectedTemplate, Storage.setSelectedTemplate, jsOr, hk]

/-! ## Claim theorems: workflow and error handling (C3, C4, C8) -/

/-- C3: an error raised inside a workflow network call is caught, surfaced
as a user-facing alert carrying the error message, and moves the workflow
back to an earlier state in the linear order: a transcription failure
returns the state to `IDLE`, and a note-generation failure returns the
state to `TRANSCRIPT_READY`. -/
theorem c3_error_recovery (c : AppComponent) (s : LocalStorage) (e : String)
    (audio : AudioData) (render : String → String) :
    (handleStopRecording c (.ok audio) true (.error e)).appState = .IDLE ∧
    (handleStopRecording c (.ok audio) true (.error e)).alert = some (e, .error) ∧
    stateOrd .IDLE < stateOrd .TRANSCRIBING ∧
    (handleGenerateSOAP c s true (.error e) render).1.appState = .TRANSCRIPT_READY ∧
    (handleGenerateSOAP c s true (.error e) render).1.alert = some (e, .error) ∧
    stateOrd .TRANSCRIPT_READY < stateOrd .GENERATING_SOAP :=
  ⟨rfl, rfl, by decide, rfl, rfl, by decide⟩

/-- C4 counterexample: re-recording from `TRANSCRIPT_READY` is a non-error
transition that goes back to `IDLE` instead of advancing along the path,
and Regenerate pressed while transcribing (its control is enabled whenever
a note exists and the app is not generating) is a non-error transition
`TRANSCRIBING → GENERATING_SOAP` that skips forward past
`TRANSCRIPT_READY`. -/
theorem c4_linear_advance_counterexample :
    (NonErrorStep .TRANSCRIPT_READY .IDLE ∧
      stateOrd .IDLE ≠ stateOrd .TRANSCRIPT_READY + 1) ∧
    (NonErrorStep .TRANSCRIBING .GENERATING_SOAP ∧
      stateOrd .TRANSCRIBING + 1 < stateOrd .GENERATING_SOAP ∧
      pathNext .TRANSCRIBING ≠ some .GENERATING_SOAP) :=
  ⟨⟨.rerecord _ (by decide), by decide⟩,
   ⟨.regenerate _ (by decide), by decide, by decide⟩⟩

/-- C4 (amended): every non-error transition of the workflow either returns
to an earlier-or-equal position in the linear order, or advances to the
unique successor along the path `idle → recording → transcribing →
transcript_ready → generating_soap → soap_ready`, or is a Regenerate entry
into the generating state; in particular every transition that skips
forward by more than one step targets the generating state. -/
theorem c4_forward_steps (s t : AppState) (h : NonErrorStep s t) :
    (stateOrd t ≤ stateOrd s ∨ pathNext s = some t ∨ t = .GENERATING_SOAP) ∧
    (stateOrd s + 1 < stateOrd t → t = .GENERATING_SOAP) := by
  cases h with
  | startRec s hs => cases s <;> exact ⟨by decide, by decide⟩
  | stopRec => exact ⟨by decide, by decide⟩
  | transcribeOk => exact ⟨by decide, by decide⟩
  | generate => exact ⟨by decide, by decide⟩
  | regenerate s hs => cases s <;> exact ⟨by decide, by decide⟩
  | generateOk => exact ⟨by decide, by decide⟩
  | rerecord s hs => cases s <;> exact ⟨by decide, by decide⟩

/-- Witness for `c4_forward_steps` at the stop-recording transition. -/
theorem c4_forward_steps_witness :
    (stateOrd .TRANSCRIBING ≤ stateOrd .RECORDING ∨
      pathNext .RECORDING = some .TRANSCRIBING ∨
      AppState.TRANSCRIBING = .GENERATING_SOAP) ∧
    (stateOrd .RECORDING + 1 < stateOrd .TRANSCRIBING →
      AppState.TRANSCRIBING = .GENERATING_SOAP) :=
  c4_forward_steps .RECORDING .TRANSCRIBING .stopRec

/-- C8: while the workflow is transcribing, no available control starts a
transcription request, and while it is generating, no available control
starts a note-generation request — the triggering controls are disabled or
hidden in those states. -/
theorem c8_single_flight (ht hc : Bool) (a : UserAction) :
    (actionAvailable .TRANSCRIBING ht hc a = true →
      startsRequest a ≠ some .transcription) ∧
    (actionAvailable .GENERATING_SOAP ht hc a = true →
      startsRequest a ≠ some .noteGeneration) := by
  cases ht <;> cases hc <;> cases a <;> exact ⟨by decide, by decide⟩

/-- Witness for `c8_single_flight` at an action available in both states. -/
theorem c8_single_flight_witness :
    startsRequest .startRecording ≠ some .transcription ∧
    startsRequest .startRecording ≠ some .noteGeneration :=
  ⟨(c8_single_flight true true .startRecording).1 (by decide),
   (c8_single_flight true true .startRecording).2 (by decide)⟩

/-- Witness for `c7_roundtrip_amended` at a concrete non-empty key. -/
theorem c7_roundtrip_amended_witness :
    Storage.getApiKey (Storage.setApiKey {} "abc") = "abc" ∧
    ("abc" ≠ "" →
      Storage.getSystemPrompt (Storage.setSystemPrompt {} "abc") = "abc" ∧
      Storage.getSelectedTemplate (Storage.setSelectedTemplate {} "abc") = "abc") ∧
    Storage.getApiKey {} = "" ∧
    Storage.getSystemPrompt {} = DEFAULT_SYSTEM_PROMPT ∧
    Storage.getSelectedTemplate {} = "none" ∧
    Storage.getApiKey (Storage.clearAllData {}) = "" ∧
    Storage.getSystemPrompt (Storage.clearAllData {}) = DEFAULT_SYSTEM_PROMPT ∧
    Storage.getSelectedTemplate (Storage.clearAllData {}) = "none" :=
  c7_roundtrip_amended {} "abc"

/-! ## Claim theorems: note-generation request (C6) -/

theorem length_pos_of_ne_empty {s : String} (h : s ≠ "") : 0 < s.length := by
  cases s with
  | mk data =>
    cases data with
    | nil => exact absurd rfl h
    | cons c cs => simp [String.length]

theorem jsTrim_empty : jsTrim "" = "" := rfl

/-- C6: the note-generation request always carries the system prompt as the
system instruction and the abbreviation preamble plus the transcript as the
user parts; exactly when the template content is non-empty after trimming,
the template text is prepended with a guide preamble and a separator; an
absent or whitespace-only template adds nothing. -/
theorem c6_note_request (t sp tc₁ tc₂ : String) (oc : Option String)
    (h₁ : jsTrim tc₁ ≠ "") (h₂ : jsTrim tc₂ = "") :
    (generateNoteRequest t sp oc).systemInstruction = sp ∧
    (generateNoteRequest t sp oc).model = analysisModel ∧
    (generateNoteRequest t sp (some tc₁)).parts =
      [templateGuideText, tc₁, templateSeparatorText, noteAbbrevPreamble, t] ∧
    (generateNoteRequest t sp none).parts = [noteAbbrevPreamble, t] ∧
    (generateNoteRequest t sp (some tc₂)).parts = [noteAbbrevPreamble, t] := by
  refine ⟨rfl, rfl, ?_, rfl, ?_⟩
  · have htc : tc₁ ≠ "" := by
      intro he
      rw [he, jsTrim_empty] at h₁
      exact h₁ rfl
    have hcond : tc₁ ≠ "" ∧ (jsTrim tc₁).length > 0 :=
      ⟨htc, length_pos_of_ne_empty h₁⟩
    simp only [generateNoteRequest, buildUserParts]
    rw [if_pos hcond]
  · have hncond : ¬(tc₂ ≠ "" ∧ (jsTrim tc₂).length > 0) := by
      rintro ⟨-, hl⟩
      rw [h₂] at hl
      simp at hl
    simp only [generateNoteRequest, buildUserParts]
    rw [if_neg hncond]

/-- Witness for `c6_note_request` at a concrete template and a
whitespace-only template. -/
theorem c6_note_request_witness :
    (generateNoteRequest "T" "S" (some "x")).systemInstruction = "S" ∧
    (generateNoteRequest "T" "S" (some "x")).model = analysisModel ∧
    (generateNoteRequest "T" "S" (some "x")).parts =
      [templateGuideText, "x", templateSeparatorText, noteAbbrevPreamble, "T"] ∧
    (generateNoteRequest "T" "S" none).parts = [noteAbbrevPreamble, "T"] ∧
    (generateNoteRequest "T" "S" (some " ")).parts = [noteAbbrevPreamble, "T"] :=
  c6_note_request "T" "S" "x" " " (some "x") (by decide) (by decide)

/-! ## Claim theorems: non-empty trimmed AI responses (C9) -/

theorem extractTrimmedText_ok {r : Option String} {m s : String}
    (h : extractTrimmedText r m = .ok s) : jsTrim s = s ∧ s ≠ "" := by
  cases r with
  | none => simp [extractTrimmedText] at h
  | some t =>
    simp only [extractTrimmedText] at h
    by_cases h1 : t = ""
    · rw [if_pos h1] at h
      simp at h
    · rw [if_neg h1] at h
      by_cases h2 : (jsTrim t).length = 0
      · rw [if_pos h2] at h
        simp at h
      · rw [if_neg h2] at h
        simp only [Except.ok.injEq] at h
        subst h
        exact ⟨jsTrim_idem t, ne_empty_of_length_pos (Nat.pos_of_ne_zero h2)⟩

theorem extractTrimmedText_of_trim_empty {t : String} (m : String)
    (h : jsTrim t = "") : extractTrimmedText (some t) m = .error m := by
  simp only [extractTrimmedText]
  by_cases h1 : t = ""
  · rw [if_pos h1]
  · rw [if_neg h1, h]
    simp

theorem transcribeAudioResult_ok {r : Option String} {s : String}
    (h : transcribeAudioResult r = .ok s) :
    extractTrimmedText r "Transcription returned empty result" = .ok s := by
  unfold transcribeAudioResult at h
  cases hx : extractTrimmedText r "Transcription returned empty result" with
  | ok t => rw [hx] at h; simpa using h
  | error e => rw [hx] at h; simp at h

theorem generateNoteResult_ok {r : Option String} {s : String}
    (h : generateNoteResult r = .ok s) :
    extractTrimmedText r "SOAP generation returned empty result" = .ok s := by
  unfold generateNoteResult at h
  cases hx : extractTrimmedText r "SOAP generation returned empty result" with
  | ok t => rw [hx] at h; simpa using h
  | error e => rw [hx] at h; simp at h

/-- C9: `transcribeAudio` and `generateNote` never return an empty or
whitespace-padded string — a successful result is trimmed and non-empty —
and an absent, empty, or whitespace-only response text makes the call throw
instead of returning it. -/
theorem c9_nonempty_trimmed (r₁ r₂ : Option String) (s₁ s₂ t : String)
    (h₁ : transcribeAudioResult r₁ = .ok s₁)
    (h₂ : generateNoteResult r₂ = .ok s₂)
    (h₃ : jsTrim t = "") :
    (jsTrim s₁ = s₁ ∧ s₁ ≠ "") ∧
    (jsTrim s₂ = s₂ ∧ s₂ ≠ "") ∧
    (∃ e, transcribeAudioResult (some t) = .error e) ∧
    (∃ e, generateNoteResult (some t) = .error e) ∧
    (∃ e, transcribeAudioResult none = .error e) ∧
    (∃ e, generateNoteResult none = .error e) := by
  refine ⟨extractTrimmedText_ok (transcribeAudioResult_ok h₁),
          extractTrimmedText_ok (generateNoteResult_ok h₂), ?_, ?_, ?_, ?_⟩
  · refine ⟨mapTranscriptionError "Transcription returned empty result", ?_⟩
    unfold transcribeAudioResult
    rw [extractTrimmedText_of_trim_empty _ h₃]
  · refine ⟨mapGenerationError "SOAP generation returned empty result", ?_⟩
    unfold generateNoteResult
    rw [extractTrimmedText_of_trim_empty _ h₃]
  · exact ⟨mapTranscriptionError "Transcription returned empty result", rfl⟩
  · exact ⟨mapGenerationError "SOAP generation returned empty result", rfl⟩

/-- Witness for `c9_nonempty_trimmed` at concrete padded responses. -/
theorem c9_nonempty_trimmed_witness :
    (jsTrim "hi" = "hi" ∧ "hi" ≠ "") ∧
    (jsTrim "ok" = "ok" ∧ "ok" ≠ "") ∧
    (∃ e, transcribeAudioResult (some " ") = .error e) ∧
    (∃ e, generateNoteResult (some " ") = .error e) ∧
    (∃ e, transcribeAudioResult none = .error e) ∧
    (∃ e, generateNoteResult none = .error e) :=
  c9_nonempty_trimmed (some "  hi ") (some " ok") "hi" "ok" " "
    rfl rfl (by decide)

/-! ## Claim theorems: audio recorder preconditions (C10) -/

/-- C10: `start()` throws when `initialize()` has not run or a recording is
already in progress; `stop()` throws when no recording is active; a
successful `start()` leaves the recorder active with the start time set;
and under the precondition that a recording is active (with its start time
set), `stop()` resolves with the blob assembled from the collected chunks,
the recorder's MIME type (defaulted to `audio/webm`), and the elapsed
duration in whole seconds. -/
theorem c10_recorder_preconditions (r₀ r₁ r₂ r₃ r₄ r₄ok : AudioRecorder)
    (now now2 : Nat) (mr₁ : MediaRecorder) (t0 : Nat)
    (h₀ : r₀.mediaRecorder = none)
    (h₁ : r₁.mediaRecorder = some mr₁) (h₁s : mr₁.state = .recording)
    (h₂ : r₂.isActive = false)
    (h₄ : AudioRecorder.start r₄ now = .ok r₄ok)
    (h₃ : r₃.isActive = true) (h₃t : r₃.startTime = some t0) :
    AudioRecorder.start r₀ now = .error "Recorder not initialized. Call initialize() first." ∧
    AudioRecorder.start r₁ now = .error "Recording already in progress." ∧
    AudioRecorder.stop r₂ now = .error "No active recording to stop." ∧
    (r₄ok.isActive = true ∧ r₄ok.startTime = some now ∧ r₄ok.audioChunks = []) ∧
    (∃ mr₃, r₃.mediaRecorder = some mr₃ ∧
      AudioRecorder.stop r₃ now2 = .ok
        ({ r₃ with mediaRecorder := some { mr₃ with state := .inactive } },
         { blob := { data := r₃.audioChunks.flatMap (fun b => b.data),
                     type := jsOr (some mr₃.mimeType) "audio/webm" },
           mimeType := jsOr (some mr₃.mimeType) "audio/webm",
           duration := (now2 - t0) / 1000 })) := by
  refine ⟨?_, ?_, ?_, ?_, ?_⟩
  · simp [AudioRecorder.start, h₀]
  · simp [AudioRecorder.start, h₁, h₁s]
  · unfold AudioRecorder.stop
    unfold AudioRecorder.isActive at h₂
    cases hmr : r₂.mediaRecorder with
    | none => rfl
    | some mr =>
        rw [hmr] at h₂
        simp at h₂
        simp [h₂]
  · unfold AudioRecorder.start at h₄
    cases hmr : r₄.mediaRecorder with
    | none => rw [hmr] at h₄; simp at h₄
    | some mr =>
        rw [hmr] at h₄
        by_cases hst : mr.state = .recording
        · simp [hst] at h₄
        · simp [hst] at h₄
          subst h₄
          exact ⟨rfl, rfl, rfl⟩
  · unfold AudioRecorder.isActive at h₃
    cases hmr : r₃.mediaRecorder with
    | none => rw [hmr] at h₃; simp at h₃
    | some mr₃ =>
        rw [hmr] at h₃
        simp only [decide_eq_true_eq] at h₃
        refine ⟨mr₃, rfl, ?_⟩
        unfold AudioRecorder.stop
        rw [hmr]
        simp [h₃, h₃t]

/-- Witness for `c10_recorder_preconditions` at concrete recorders. -/
theorem c10_recorder_preconditions_witness :
    AudioRecorder.start {} 500 = .error "Recorder not initialized. Call initialize() first." ∧
    AudioRecorder.start { mediaRecorder := some { state := .recording, mimeType := "audio/webm" } } 500 =
      .error "Recording already in progress." ∧
    AudioRecorder.stop { mediaRecorder := some { state := .inactive, mimeType := "audio/webm" } } 500 =
      .error "No active recording to stop." ∧
    (({ mediaRecorder := some { state := .recording, mimeType := "audio/webm" },
        audioChunks := [], startTime := some 500 } : AudioRecorder).isActive = true ∧
     ({ mediaRecorder := some { state := .recording, mimeType := "audio/webm" },
        audioChunks := [], startTime := some 500 } : AudioRecorder).startTime = some 500 ∧
     ({ mediaRecorder := some { state := .recording, mimeType := "audio/webm" },
        audioChunks := [], startTime := some 500 } : AudioRecorder).audioChunks = []) ∧
    (∃ mr₃, ({ mediaRecorder := some { state := .recording, mimeType := "audio/webm" },
               audioChunks := [{ data := [1, 2], type := "audio/webm" }],
               startTime := some 1000 } : AudioRecorder).mediaRecorder = some mr₃ ∧
      AudioRecorder.stop
        { mediaRecorder := some { state := .recording, mimeType := "audio/webm" },
          audioChunks := [{ data := [1, 2], type := "audio/webm" }],
          startTime := some 1000 } 3000 = .ok
        ({ ({ mediaRecorder := some { state := .recording, mimeType := "audio/webm" },
              audioChunks := [{ data := [1, 2], type := "audio/webm" }],
              startTime := some 1000 } : AudioRecorder) with
            mediaRecorder := some { mr₃ with state := .inactive } },
         { blob := { data := ([{ data := [1, 2], type := "audio/webm" }] : List Blob).flatMap
                       (fun b => b.data),
                     type := jsOr (some mr₃.mimeType) "audio/webm" },
           mimeType := jsOr (some mr₃.mimeType) "audio/webm",
           duration := (3000 - 1000) / 1000 })) :=
  c10_recorder_preconditions {}
    { mediaRecorder := some { state := .recording, mimeType := "audio/webm" } }
    { mediaRecorder := some { state := .inactive, mimeType := "audio/webm" } }
    { mediaRecorder := some { state := .recording, mimeType := "audio/webm" },
      audioChunks := [{ data := [1, 2], type := "audio/webm" }], startTime := some 1000 }
    { mediaRecorder := some { state := .inactive, mimeType := "audio/webm" },
      audioChunks := [], startTime := none }
    { mediaRecorder := some { state := .recording, mimeType := "audio/webm" },
      audioChunks := [], startTime := some 500 }
    500 3000 { state := .recording, mimeType := "audio/webm" } 1000
    rfl rfl rfl rfl rfl rfl rfl

end WebRecords
